import Mathlib

set_option maxRecDepth 100000

/-!
Verification of the sxplayer test program (`test-prog.c`).

The file shallowly embeds the three non-trivial pieces of the program:

* the combinatorial action-sequence enumerator (`get_next_comb`, `has_dup`),
  working on a nibble-packed natural number exactly as the C code works on a
  nibble-packed `uint64_t`;
* the frame verification oracle (`check_frame`), whose `double` arithmetic is
  modelled by exact rational arithmetic (the constants 7.12, 53.43, 1/25 are
  modelled by the corresponding rationals; every comparison appearing in the
  claims is far from the tolerance boundary, so rounding of `double` cannot
  change its outcome);
* the probe actions and the sequence executor (`action_fetch_info`,
  `action_start`, `action_middle`, `exec_comb`), with the external player API
  modelled by explicitly passed responses and an explicit state thread, and
  with frame acquisition/release recorded as lists of frame indices.

Theorems about the enumerator are settled by running it: `theOrbit` is the
full list of sequences emitted when iterating `get_next_comb` from the empty
sequence, and is proved equal to an independently generated list of all
duplicate-free sequences.
-/

namespace Sxtest

/-! ## Constants from test-prog.c -/

/-- `#define BITS_PER_ACTION 4` -/
def BITS_PER_ACTION : Nat := 4

/-- `enum action`: `EOA` (end of actions) is 0. -/
def EOA : Nat := 0

/-- `ACTION_PREFETCH` -/
def ACTION_PREFETCH : Nat := 1

/-- `ACTION_FETCH_INFO` -/
def ACTION_FETCH_INFO : Nat := 2

/-- `ACTION_START` -/
def ACTION_START : Nat := 3

/-- `ACTION_MIDDLE` -/
def ACTION_MIDDLE : Nat := 4

/-- `ACTION_END` -/
def ACTION_END : Nat := 5

/-- `NB_ACTIONS`: one more than the last action id. -/
def NB_ACTIONS : Nat := 6

/-- `#define GET_ACTION(c, id) ((c) >> ((id)*BITS_PER_ACTION) & ((1<<BITS_PER_ACTION)-1))` -/
def GET_ACTION (c : Nat) (id : Nat) : Nat :=
  (c >>> (id * BITS_PER_ACTION)) &&& ((1 <<< BITS_PER_ACTION) - 1)

/-! ## has_dup (test-prog.c lines 227-241)

```
static int has_dup(uint64_t comb)
{
    int i;
    uint64_t actions = 0;
    for (i = 0; i < NB_ACTIONS; i++) {
        const int action = GET_ACTION(comb, i);
        if (!action)
            break;
        if (actions & (1<<action))
            return 1;
        actions |= 1 << action;
    }
    return 0;
}
```
The `for` loop runs for at most `NB_ACTIONS` iterations; the first argument
of `has_dup_loop` counts the remaining iterations (`NB_ACTIONS - i`). -/

def has_dup_loop (comb : Nat) : Nat → Nat → Nat → Nat
  | 0, _, _ => 0
  | fuel + 1, i, actions =>
    let action := GET_ACTION comb i
    if action = 0 then 0
    else if actions &&& (1 <<< action) ≠ 0 then 1
    else has_dup_loop comb fuel (i + 1) (actions ||| (1 <<< action))

/-- `has_dup` returns 1 when some action id occurs twice among the packed
nibbles before the first zero nibble, 0 otherwise. -/
def has_dup (comb : Nat) : Nat := has_dup_loop comb NB_ACTIONS 0 0

/-! ## get_next_comb (test-prog.c lines 243-267)

```
static uint64_t get_next_comb(uint64_t comb)
{
    int i = 0, need_inc = 1;
    uint64_t ret = 0;
    for (;;) {
        int action = GET_ACTION(comb, i);
        if (i == NB_ACTIONS)
            return EOA;
        if (!action && !need_inc)
            break;
        if (need_inc) {
            action++;
            if (action == NB_ACTIONS)
                action = 1; // back to first action
            else
                need_inc = 0;
        }
        ret |= action << (i*BITS_PER_ACTION);
        i++;
    }
    if (has_dup(ret))
        return get_next_comb(ret);
    return ret;
}
```
-/

/-- The `for (;;)` loop of `get_next_comb`.  `i` increases by one per
iteration and the loop returns as soon as `i = NB_ACTIONS`, so the loop
performs at most `NB_ACTIONS + 1` iterations; the first argument counts the
remaining ones (`NB_ACTIONS + 1 - i`).  Result `none` is the `return EOA`
exit, `some ret` is the `break` exit. -/
def get_next_loop (comb : Nat) : Nat → Nat → Bool → Nat → Option Nat
  | 0, _, _, _ => none
  | fuel + 1, i, need_inc, ret =>
    let action := GET_ACTION comb i
    if i = NB_ACTIONS then none
    else if action = 0 ∧ need_inc = false then some ret
    else
      let action1 := if need_inc then action + 1 else action
      let wrapped := need_inc ∧ action1 = NB_ACTIONS
      let action2 := if wrapped then 1 else action1
      let need_inc1 : Bool := wrapped
      get_next_loop comb fuel (i + 1) need_inc1
        (ret ||| (action2 <<< (i * BITS_PER_ACTION)))

/-- The tail recursion `return get_next_comb(ret)` of the C function, made
explicit with a fuel argument: `none` means the fuel ran out (this never
happens for the inputs the program feeds the function, as proved below),
`some EOA` (= `some 0`) is the `return EOA` exit, and `some c` with `c ≠ 0`
is an emitted combination. -/
def get_next_comb_rec : Nat → Nat → Option Nat
  | 0, _ => none
  | fuel + 1, comb =>
    match get_next_loop comb (NB_ACTIONS + 1) 0 true 0 with
    | none => some EOA
    | some ret =>
      if has_dup ret = 1 then get_next_comb_rec fuel ret else some ret

/-- `get_next_comb`, with fuel `16 ^ NB_ACTIONS`: an upper bound on the
number of distinct values the recursion can visit, far above the actual
maximal recursion depth. -/
def get_next_comb (comb : Nat) : Option Nat :=
  get_next_comb_rec (16 ^ NB_ACTIONS) comb

/-! ## The enumeration orbit

`run_tests_all_combs` (test-prog.c lines 269-298) starts from `comb = 0` and
repeatedly applies `get_next_comb` to the previous result, executing each
returned combination until `get_next_comb` returns `EOA`. -/

/-- The list of combinations emitted by iterating `get_next_comb` from
`comb`, in emission order; `none` if some step runs out of fuel. -/
def orbit_from : Nat → Nat → Option (List Nat)
  | 0, _ => none
  | fuel + 1, comb =>
    match get_next_comb comb with
    | none => none
    | some c => if c = EOA then some [] else (orbit_from fuel c).map (c :: ·)

/-- The full emission orbit of the test program: every combination executed
by `run_tests_all_combs`, in order.  Fuel 400 is enough (the program emits
325 combinations and then the sentinel). -/
def theOrbit : List Nat := (orbit_from 400 0).getD []

/-! ## Specification-side view of packed combinations

A packed combination is read as the list of its nibbles up to the first zero
nibble (at most `NB_ACTIONS` of them), exactly the view `exec_comb`,
`has_dup` and `print_comb_name` take of it. -/

/-- Decode at most `fuel` nibbles of `c`, stopping at the first zero. -/
def decodeAux : Nat → Nat → List Nat
  | 0, _ => []
  | fuel + 1, c =>
    let a := c % 16
    if a = 0 then [] else a :: decodeAux fuel (c / 16)

/-- The action list denoted by a packed combination. -/
def decodeC (c : Nat) : List Nat := decodeAux NB_ACTIONS c

/-- Encode an action list into a packed combination: position 0 is the least
significant nibble, as in `GET_ACTION`. -/
def encode : List Nat → Nat
  | [] => 0
  | a :: rest => a + 16 * encode rest

/-- The non-terminator action ids. -/
def actionIds : List Nat := [ACTION_PREFETCH, ACTION_FETCH_INFO, ACTION_START,
  ACTION_MIDDLE, ACTION_END]

/-- All lists of the given length over `actionIds`, ordered with the head
varying fastest (the little-endian counting order of the enumerator). -/
def tuples : Nat → List (List Nat)
  | 0 => [[]]
  | n + 1 => (tuples n).flatMap (fun t => actionIds.map (fun a => a :: t))

/-- Modelled from the spec: a valid emitted sequence is a nonempty,
duplicate-free list of at most `NB_ACTIONS - 1` action ids. -/
def validSeq (l : List Nat) : Prop :=
  l ≠ [] ∧ l.length ≤ 5 ∧ (∀ a ∈ l, a ∈ actionIds) ∧ l.Nodup

/-- All duplicate-free nonempty sequences of length 1..5 over the five
action ids, generated independently of the enumerator, in the enumerator's
counting order. -/
def allSeqs : List (List Nat) :=
  ((List.range 5).flatMap (fun n => tuples (n + 1))).filter (fun l => decide l.Nodup)

/-- `allSeqs`, packed. -/
def expectedEnc : List Nat := allSeqs.map encode

end Sxtest

namespace Sxtest

/-- The 325 combinations the enumerator emits, as a literal list (little
endian nibble packing; value 1 is the sequence [prefetch], 18 = 0x12 is
[fetchinfo, prefetch], ..., 344865 = 0x54321 is the last emitted sequence
[prefetch, fetchinfo, start, middle, end]). -/
def expectedLit : List Nat :=
  [
  1, 2, 3, 4, 5, 18, 19, 20, 21, 33, 35, 36, 37, 49, 50,
  52, 53, 65, 66, 67, 69, 81, 82, 83, 84, 291, 292, 293, 306, 308,
  309, 322, 323, 325, 338, 339, 340, 531, 532, 533, 561, 564, 565, 577, 579,
  581, 593, 595, 596, 786, 788, 789, 801, 804, 805, 833, 834, 837, 849, 850,
  852, 1042, 1043, 1045, 1057, 1059, 1061, 1073, 1074, 1077, 1105, 1106, 1107, 1298, 1299,
  1300, 1313, 1315, 1316, 1329, 1330, 1332, 1345, 1346, 1347, 4660, 4661, 4675, 4677, 4691,
  4692, 4900, 4901, 4930, 4933, 4946, 4948, 5155, 5157, 5170, 5173, 5202, 5203, 5411, 5412,
  5426, 5428, 5442, 5443, 8500, 8501, 8515, 8517, 8531, 8532, 8980, 8981, 9025, 9029, 9041,
  9044, 9235, 9237, 9265, 9269, 9297, 9299, 9491, 9492, 9521, 9524, 9537, 9539, 12580, 12581,
  12610, 12613, 12626, 12628, 12820, 12821, 12865, 12869, 12881, 12884, 13330, 13333, 13345, 13349, 13393,
  13394, 13586, 13588, 13601, 13604, 13633, 13634, 16675, 16677, 16690, 16693, 16722, 16723, 16915, 16917,
  16945, 16949, 16977, 16979, 17170, 17173, 17185, 17189, 17233, 17234, 17682, 17683, 17697, 17699, 17713,
  17714, 20771, 20772, 20786, 20788, 20802, 20803, 21011, 21012, 21041, 21044, 21057, 21059, 21266, 21268,
  21281, 21284, 21313, 21314, 21522, 21523, 21537, 21539, 21553, 21554, 74565, 74580, 74805, 74835, 75060,
  75075, 78405, 78420, 78885, 78930, 79140, 79170, 82485, 82515, 82725, 82770, 83235, 83250, 86580, 86595,
  86820, 86850, 87075, 87090, 136005, 136020, 136245, 136275, 136500, 136515, 143685, 143700, 144405, 144465, 144660,
  144705, 147765, 147795, 148245, 148305, 148755, 148785, 151860, 151875, 152340, 152385, 152595, 152625, 201285, 201300,
  201765, 201810, 202020, 202050, 205125, 205140, 205845, 205905, 206100, 206145, 213285, 213330, 213525, 213585, 214290,
  214305, 217380, 217410, 217620, 217665, 218130, 218145, 266805, 266835, 267045, 267090, 267555, 267570, 270645, 270675,
  271125, 271185, 271635, 271665, 274725, 274770, 274965, 275025, 275730, 275745, 282915, 282930, 283155, 283185, 283410,
  283425, 332340, 332355, 332580, 332610, 332835, 332850, 336180, 336195, 336660, 336705, 336915, 336945, 340260, 340290,
  340500, 340545, 341010, 341025, 344355, 344370, 344595, 344625, 344850, 344865]

end Sxtest

namespace Sxtest

/-! ## Facts about the enumeration, established by running it -/

/-- Running the enumerator: iterating `get_next_comb` from the empty
sequence emits exactly the combinations of `expectedLit` and then the
sentinel, with fuel to spare. -/
theorem orbit_lit : orbit_from 400 0 = some expectedLit := by decide

/-- The emission orbit, as a literal list. -/
theorem theOrbit_eq : theOrbit = expectedLit := by
  unfold theOrbit
  rw [orbit_lit]
  rfl

/-- The independently generated list of all duplicate-free sequences agrees
with the literal list. -/
theorem expectedEnc_eq : expectedEnc = expectedLit := by decide

/-- Completeness of `tuples`: every list over the action ids of length `n`
appears in `tuples n`. -/
theorem mem_tuples : ∀ l : List Nat, (∀ a ∈ l, a ∈ actionIds) → l ∈ tuples l.length := by
  intro l
  induction l with
  | nil => intro _; simp [tuples]
  | cons a t ih =>
    intro h
    simp only [List.length_cons, tuples, List.mem_flatMap]
    refine ⟨t, ih (fun b hb => h b (List.mem_cons_of_mem a hb)), ?_⟩
    exact List.mem_map_of_mem _ (h a (List.mem_cons_self a t))

/-- Every valid sequence appears in the generated list `allSeqs`. -/
theorem validSeq_mem {l : List Nat} (h : validSeq l) : l ∈ allSeqs := by
  obtain ⟨hne, hlen, hmem, hnd⟩ := h
  have h1 : l ∈ tuples l.length := mem_tuples l hmem
  have hpos : 1 ≤ l.length := List.length_pos.mpr hne
  have h3 : l ∈ (List.range 5).flatMap (fun n => tuples (n + 1)) := by
    rw [List.mem_flatMap]
    refine ⟨l.length - 1, ?_, ?_⟩
    · rw [List.mem_range]; omega
    · have hl : l.length - 1 + 1 = l.length := by omega
      rw [hl]; exact h1
  unfold allSeqs
  rw [List.mem_filter]
  exact ⟨h3, decide_eq_true hnd⟩

/-- Every combination fed to `get_next_comb` along a successful iteration
(the starting one and every emitted one) is an input on which the recursive
duplicate-skip terminates. -/
theorem orbit_chain : ∀ (f c : Nat) (L : List Nat), orbit_from f c = some L →
    ∀ x ∈ c :: L, (get_next_comb x).isSome = true := by
  intro f
  induction f with
  | zero => intro c L h; simp [orbit_from] at h
  | succ f ih =>
    intro c L h x hx
    unfold orbit_from at h
    cases hg : get_next_comb c with
    | none => rw [hg] at h; simp at h
    | some c1 =>
      rw [hg] at h
      by_cases hc : c1 = EOA
      · simp only [hc, if_pos rfl] at h
        have hL : L = [] := (Option.some_inj.mp h).symm
        subst hL
        have hxc : x = c := by simpa using hx
        subst hxc
        simp [hg]
      · simp only [if_neg hc] at h
        cases hO : orbit_from f c1 with
        | none => rw [hO] at h; simp at h
        | some L1 =>
          rw [hO] at h
          have hL : L = c1 :: L1 := by simpa using h.symm
          subst hL
          rcases List.mem_cons.mp hx with hxc | hx1
          · subst hxc; simp [hg]
          · exact ih c1 L1 hO x hx1

end Sxtest

namespace Sxtest

instance validSeq.dec (l : List Nat) : Decidable (validSeq l) := by
  unfold validSeq; infer_instance

/-- Linear-time strict-ascension check, used to decide `Nodup` of the long
literal lists without a quadratic scan. -/
def isAscending : List Nat → Bool
  | [] => true
  | [_] => true
  | a :: b :: rest => a < b && isAscending (b :: rest)

theorem isAscending_chain : ∀ l : List Nat, isAscending l = true →
    List.Chain' (fun a b : Nat => a < b) l := by
  intro l
  induction l with
  | nil => intro _; simp
  | cons a t ih =>
    cases t with
    | nil => intro _; simp
    | cons b r =>
      intro h
      simp only [isAscending, Bool.and_eq_true, decide_eq_true_eq] at h
      exact List.chain'_cons.mpr ⟨h.1, ih h.2⟩

theorem isAscending_nodup {l : List Nat} (h : isAscending l = true) : l.Nodup :=
  List.Sorted.nodup (List.chain'_iff_pairwise.mp (isAscending_chain l h))

/-- Linear-time nondecreasing check. -/
def isNondecr : List Nat → Bool
  | [] => true
  | [_] => true
  | a :: b :: rest => a ≤ b && isNondecr (b :: rest)

theorem isNondecr_chain : ∀ l : List Nat, isNondecr l = true →
    List.Chain' (fun a b : Nat => a ≤ b) l := by
  intro l
  induction l with
  | nil => intro _; simp
  | cons a t ih =>
    cases t with
    | nil => intro _; simp
    | cons b r =>
      intro h
      simp only [isNondecr, Bool.and_eq_true, decide_eq_true_eq] at h
      exact List.chain'_cons.mpr ⟨h.1, ih h.2⟩

theorem isNondecr_pairwise {l : List Nat} (h : isNondecr l = true) :
    List.Pairwise (fun a b : Nat => a ≤ b) l :=
  List.chain'_iff_pairwise.mp (isNondecr_chain l h)

/-! ## Claims about the enumerator -/

/-- C1: starting from the empty sequence (comb = 0) with the 5 non-terminator
action ids 1..5, iterating `get_next_comb` emits every duplicate-free
sequence of length 1..5 exactly once before the terminator EOA, and the
number of emitted sequences is sum over n = 1..5 of 5!/(5-n)! = 325. -/
theorem C1_enumeration_completeness :
    theOrbit.length = 325 ∧
    ((List.range 5).map (fun n => Nat.factorial 5 / Nat.factorial (5 - (n + 1)))).sum =
      theOrbit.length ∧
    theOrbit.Nodup ∧
    (∀ l : List Nat, validSeq l → encode l ∈ theOrbit) ∧
    (∀ c ∈ theOrbit, validSeq (decodeC c) ∧ encode (decodeC c) = c) := by
  rw [theOrbit_eq]
  have hnd : expectedLit.Nodup := isAscending_nodup (by decide)
  refine ⟨by decide, by decide, hnd, ?_, by decide⟩
  intro l hv
  have h1 : l ∈ allSeqs := validSeq_mem hv
  have h2 : encode l ∈ allSeqs.map encode := List.mem_map_of_mem _ h1
  rw [show allSeqs.map encode = expectedLit from expectedEnc_eq] at h2
  exact h2

/-- C1 witness: the valid sequence [start, prefetch] is emitted (as the
packed value 19), and the emitted value 18 decodes to a valid sequence. -/
theorem C1_witness :
    validSeq [ACTION_START, ACTION_PREFETCH] ∧
    encode [ACTION_START, ACTION_PREFETCH] ∈ theOrbit ∧
    (18 : Nat) ∈ theOrbit ∧ validSeq (decodeC 18) ∧ encode (decodeC 18) = 18 := by
  have hmem : (18 : Nat) ∈ theOrbit := by rw [theOrbit_eq]; decide
  have hv : validSeq [ACTION_START, ACTION_PREFETCH] := by
    constructor
    · simp
    · refine ⟨by simp, by decide, by decide⟩
  refine ⟨hv, C1_enumeration_completeness.2.2.2.1 _ hv, hmem, ?_, ?_⟩
  · exact (C1_enumeration_completeness.2.2.2.2 18 hmem).1
  · exact (C1_enumeration_completeness.2.2.2.2 18 hmem).2

/-- C2: every sequence emitted by iterating `get_next_comb` from the empty
sequence is duplicate-free: `has_dup` of every emitted combination is 0. -/
theorem C2_no_duplicates : ∀ c ∈ theOrbit, has_dup c = 0 := by
  rw [theOrbit_eq]; decide

/-- C2 witness at the first emitted combination. -/
theorem C2_witness : (1 : Nat) ∈ theOrbit ∧ has_dup 1 = 0 := by
  have h : (1 : Nat) ∈ theOrbit := by rw [theOrbit_eq]; decide
  exact ⟨h, C2_no_duplicates 1 h⟩

end Sxtest

namespace Sxtest

/-- C6 counterexample: the claim says the successor of the length-1 sequence
[prefetch] extends it; in fact `get_next_comb` advances the first element
instead, producing [fetchinfo], another length-1 sequence that does not even
begin with prefetch. -/
theorem C6_counterexample :
    get_next_comb (encode [ACTION_PREFETCH]) = some 2 ∧
    decodeC (encode [ACTION_PREFETCH]) = [ACTION_PREFETCH] ∧
    decodeC 2 = [ACTION_FETCH_INFO] ∧
    (decodeC 2).length = 1 ∧
    ¬ (∃ rest : List Nat, decodeC 2 = decodeC (encode [ACTION_PREFETCH]) ++ rest ∧
        rest ≠ []) := by
  refine ⟨by decide, by decide, by decide, by decide, ?_⟩
  rintro ⟨rest, h, -⟩
  have h1 : decodeC 2 = [ACTION_FETCH_INFO] := by decide
  have h2 : decodeC (encode [ACTION_PREFETCH]) = [ACTION_PREFETCH] := by decide
  rw [h1, h2] at h
  simp [ACTION_FETCH_INFO, ACTION_PREFETCH] at h

/-- C6 amended: the enumeration order is shortest-first, not depth-first:
every emitted sequence is at least as long as all sequences emitted before
it (all length-n sequences appear before any length-(n+1) sequence), and
within a length class the first position varies fastest; in particular the
successor of [prefetch] is the length-1 sequence [fetchinfo], not an
extension of [prefetch]. -/
theorem C6_amended_order :
    List.Pairwise (fun a b => (decodeC a).length ≤ (decodeC b).length) theOrbit ∧
    get_next_comb (encode [ACTION_PREFETCH]) = some (encode [ACTION_FETCH_INFO]) := by
  constructor
  · rw [theOrbit_eq]
    have h : List.Pairwise (fun a b : Nat => a ≤ b)
        (expectedLit.map (fun c => (decodeC c).length)) :=
      isNondecr_pairwise (by decide)
    exact List.pairwise_map.mp h
  · decide

/-- C9: the iteration from the empty sequence terminates: it reaches the
sentinel after exactly 325 emitted sequences (never earlier), and the
recursive duplicate-skip inside `get_next_comb` terminates (returns within
its fuel) on every combination the iteration feeds it, namely the initial
empty combination and every emitted combination. -/
theorem C9_termination :
    (orbit_from 400 0).isSome = true ∧
    theOrbit.length = 325 ∧
    (∀ c ∈ (0 : Nat) :: theOrbit, (get_next_comb c).isSome = true) := by
  refine ⟨by rw [orbit_lit]; rfl, by rw [theOrbit_eq]; decide, ?_⟩
  intro c hc
  rw [theOrbit_eq] at hc
  exact orbit_chain 400 0 expectedLit orbit_lit c hc

/-- C9 witness: the duplicate-skip terminates on the initial combination. -/
theorem C9_witness :
    (0 : Nat) ∈ (0 : Nat) :: theOrbit ∧ (get_next_comb 0).isSome = true :=
  ⟨List.mem_cons_self 0 theOrbit, C9_termination.2.2 0 (List.mem_cons_self 0 theOrbit)⟩

end Sxtest

namespace Sxtest

/-! ## The frame verification oracle (test-prog.c lines 55-106)

```
#define N 4
#define SOURCE_FPS 25
#define FLAG_SKIP          (1<<0)
#define FLAG_TRIM_DURATION (1<<1)
#define FLAG_AUDIO         (1<<2)
#define TESTVAL_SKIP           7.12
#define TESTVAL_TRIM_DURATION 53.43

static int check_frame(struct sxplayer_frame *f, double t, int opt_test_flags)
{
    const double skip          = (opt_test_flags & FLAG_SKIP)          ? TESTVAL_SKIP          :  0;
    const double trim_duration = (opt_test_flags & FLAG_TRIM_DURATION) ? TESTVAL_TRIM_DURATION : -1;
    const double playback_time = av_clipd(t, 0, trim_duration < 0 ? DBL_MAX : trim_duration);
    const double frame_ts = f->ts;
    const double estimated_time_from_ts = frame_ts - skip;
    const double diff_ts = fabs(playback_time - estimated_time_from_ts);
    if (!(opt_test_flags & FLAG_AUDIO)) {
        const uint32_t c = *(const uint32_t *)f->data;
        const int r = c >> (N+16) & 0xf;
        const int g = c >> (N+ 8) & 0xf;
        const int b = c >> (N+ 0) & 0xf;
        const int frame_id = r<<(N*2) | g<<N | b;
        const double video_ts = frame_id * 1. / SOURCE_FPS;
        const double estimated_time_from_color = video_ts - skip;
        const double diff_color = fabs(playback_time - estimated_time_from_color);
        if (diff_color > 1./SOURCE_FPS) { ...; return -1; }
    }
    if (diff_ts > 1./SOURCE_FPS) { ...; return -1; }
    return 0;
}
```
The `double` arithmetic is modelled by exact rational arithmetic. -/

/-- `#define N 4` -/
def Npx : Nat := 4

/-- `#define SOURCE_FPS 25` -/
def SOURCE_FPS : Nat := 25

/-- `FLAG_SKIP` -/
def FLAG_SKIP : Nat := 1

/-- `FLAG_TRIM_DURATION` -/
def FLAG_TRIM_DURATION : Nat := 2

/-- `FLAG_AUDIO` -/
def FLAG_AUDIO : Nat := 4

/-- `TESTVAL_SKIP` = 7.12 -/
def TESTVAL_SKIP : ℚ := 712 / 100

/-- `TESTVAL_TRIM_DURATION` = 53.43 -/
def TESTVAL_TRIM_DURATION : ℚ := 5343 / 100

/-- `DBL_MAX` = (2 - 2^-52) * 2^1023, the largest finite double. -/
def DBL_MAX : ℚ := (2 ^ 53 - 1) * 2 ^ 971

/-- libavutil's `av_clipd(a, amin, amax)`: clip `a` into [amin, amax]. -/
def av_clipd (a amin amax : ℚ) : ℚ :=
  if a < amin then amin else if a > amax then amax else a

/-- The two fields of `struct sxplayer_frame` that `check_frame` reads: the
presentation timestamp `f->ts` and the first 32-bit pixel of `f->data`. -/
structure Frame where
  ts : ℚ
  pixel : Nat

/-- `check_frame`, translated line by line (returns 0 or -1). -/
def check_frame (f : Frame) (t : ℚ) (opt_test_flags : Nat) : Int :=
  let skip : ℚ := if opt_test_flags &&& FLAG_SKIP ≠ 0 then TESTVAL_SKIP else 0
  let trim_duration : ℚ :=
    if opt_test_flags &&& FLAG_TRIM_DURATION ≠ 0 then TESTVAL_TRIM_DURATION else -1
  let playback_time : ℚ :=
    av_clipd t 0 (if trim_duration < 0 then DBL_MAX else trim_duration)
  let frame_ts : ℚ := f.ts
  let estimated_time_from_ts : ℚ := frame_ts - skip
  let diff_ts : ℚ := |playback_time - estimated_time_from_ts|
  if opt_test_flags &&& FLAG_AUDIO = 0 then
    let c : Nat := f.pixel
    let r : Nat := c >>> (Npx + 16) &&& 0xf
    let g : Nat := c >>> (Npx + 8) &&& 0xf
    let b : Nat := c >>> (Npx + 0) &&& 0xf
    let frame_id : Nat := r <<< (Npx * 2) ||| g <<< Npx ||| b
    let video_ts : ℚ := (frame_id : ℚ) / (SOURCE_FPS : ℚ)
    let estimated_time_from_color : ℚ := video_ts - skip
    let diff_color : ℚ := |playback_time - estimated_time_from_color|
    if diff_color > 1 / (SOURCE_FPS : ℚ) then -1
    else if diff_ts > 1 / (SOURCE_FPS : ℚ) then -1
    else 0
  else
    if diff_ts > 1 / (SOURCE_FPS : ℚ) then -1
    else 0

/-! Specification-side views of the quantities `check_frame` computes. -/

/-- The active time skew under the option flags. -/
def skewOf (flags : Nat) : ℚ := if flags &&& FLAG_SKIP ≠ 0 then TESTVAL_SKIP else 0

/-- The clipped playback time: the requested time clamped to
[0, trim_duration], with the trim duration 53.43 when the trim flag is set
and the largest double otherwise. -/
def playbackTime (t : ℚ) (flags : Nat) : ℚ :=
  av_clipd t 0
    (if flags &&& FLAG_TRIM_DURATION ≠ 0 then TESTVAL_TRIM_DURATION else DBL_MAX)

/-- The frame id encoded in a pixel: three 4-bit fields at bit offsets 20,
12 and 4 (the low nibble is reserved by the encoding), reassembled as
r<<8 | g<<4 | b. -/
def frame_id_of (pixel : Nat) : Nat :=
  ((pixel >>> 20) &&& 0xf) <<< 8 ||| ((pixel >>> 12) &&& 0xf) <<< 4 |||
    ((pixel >>> 4) &&& 0xf)

/-- Pixel encoding a frame id (test-fixture convention; inverse of
`frame_id_of` for ids below 4096). -/
def pixel_of_id (id : Nat) : Nat :=
  ((id >>> 8) &&& 0xf) <<< 20 ||| ((id >>> 4) &&& 0xf) <<< 12 |||
    (id &&& 0xf) <<< 4

/-- The verification tolerance: one source-frame period. -/
def tolerance : ℚ := 1 / (SOURCE_FPS : ℚ)

end Sxtest

namespace Sxtest


/-- `check_frame` in terms of the specification-side quantities: the
difference between audio and video flags, the clipped playback time and the
decoded frame id. -/
theorem check_frame_characterization (f : Frame) (t : ℚ) (flags : Nat) :
    check_frame f t flags =
      if flags &&& FLAG_AUDIO = 0 then
        (if |playbackTime t flags - ((frame_id_of f.pixel : ℚ) / (SOURCE_FPS : ℚ) -
              skewOf flags)| > tolerance then -1
         else if |playbackTime t flags - (f.ts - skewOf flags)| > tolerance then -1
         else 0)
      else
        (if |playbackTime t flags - (f.ts - skewOf flags)| > tolerance then -1
         else 0) := by
  unfold check_frame playbackTime skewOf tolerance frame_id_of
  rcases eq_or_ne (flags &&& FLAG_TRIM_DURATION) 0 with hT | hT
  · simp [hT, TESTVAL_TRIM_DURATION, Npx]
  · simp [hT, TESTVAL_TRIM_DURATION, Npx]
    norm_num

/-- `check_frame` only ever returns 0 (accept) or -1 (reject). -/
theorem check_frame_vals (f : Frame) (t : ℚ) (flags : Nat) :
    check_frame f t flags = 0 ∨ check_frame f t flags = -1 := by
  rw [check_frame_characterization]
  split_ifs <;> simp

/-- C3: `check_frame` accepts exactly when the clipped playback time is
within one source-frame period (1/25 s) of the skew-adjusted timestamp and,
on video frames, of the color-derived time; a strictly larger difference in
either check yields the negative failure -1.  With no skew and no trim, at
requested time 30.1 a frame with timestamp 30.099 is accepted and one with
timestamp 30.2 is rejected. -/
theorem C3_oracle_tolerance :
    (∀ (f : Frame) (t : ℚ) (flags : Nat),
      check_frame f t flags = 0 ↔
        (|playbackTime t flags - (f.ts - skewOf flags)| ≤ tolerance ∧
         (flags &&& FLAG_AUDIO ≠ 0 ∨
          |playbackTime t flags -
              ((frame_id_of f.pixel : ℚ) / (SOURCE_FPS : ℚ) - skewOf flags)| ≤
            tolerance))) ∧
    (∀ (f : Frame) (t : ℚ) (flags : Nat),
      check_frame f t flags = 0 ∨ check_frame f t flags = -1) ∧
    check_frame ⟨30099 / 1000, pixel_of_id 752⟩ (301 / 10) 0 = 0 ∧
    check_frame ⟨302 / 10, pixel_of_id 752⟩ (301 / 10) 0 = -1 := by
  have hid : frame_id_of (pixel_of_id 752) = 752 := by decide
  refine ⟨?_, check_frame_vals, ?_, ?_⟩
  · intro f t flags
    rw [check_frame_characterization]
    split_ifs with hA h1 h2 h3
    · simp [hA, not_le.mpr h1]
    · simp [hA, not_le.mpr h2]
    · simp [hA, not_lt.mp h1, not_lt.mp h2]
    · simp [hA, not_le.mpr h3]
    · simp [hA, not_lt.mp h3]
  · rw [check_frame_characterization, hid]
    norm_num [playbackTime, av_clipd, skewOf, tolerance, DBL_MAX, SOURCE_FPS,
      abs_of_nonneg]
  · rw [check_frame_characterization, hid]
    norm_num [playbackTime, av_clipd, skewOf, tolerance, DBL_MAX, SOURCE_FPS,
      abs_of_nonneg]

/-- C4: `check_frame` verifies against clip(requested_time, 0, trim) where
trim is 53.43 under the trim flag and the largest double otherwise; with
both flags set, requested time 60.0 is verified against the clipped expected
time 53.43, compared to the raw frame timestamp minus the skew 7.12. -/
theorem C4_clamp_behavior :
    av_clipd 60 0 TESTVAL_TRIM_DURATION = TESTVAL_TRIM_DURATION ∧
    playbackTime 60 (FLAG_SKIP ||| FLAG_TRIM_DURATION) = 5343 / 100 ∧
    skewOf (FLAG_SKIP ||| FLAG_TRIM_DURATION) = 712 / 100 ∧
    (∀ f : Frame,
      check_frame f 60 (FLAG_SKIP ||| FLAG_TRIM_DURATION) = 0 ↔
        (|(5343 / 100 : ℚ) - (f.ts - 712 / 100)| ≤ 1 / 25 ∧
         |(5343 / 100 : ℚ) - ((frame_id_of f.pixel : ℚ) / 25 - 712 / 100)| ≤ 1 / 25)) := by
  have h1 : av_clipd 60 0 TESTVAL_TRIM_DURATION = TESTVAL_TRIM_DURATION := by
    norm_num [av_clipd, TESTVAL_TRIM_DURATION]
  have hflag2 : (FLAG_SKIP ||| FLAG_TRIM_DURATION) &&& FLAG_TRIM_DURATION ≠ 0 := by decide
  have hflag1 : (FLAG_SKIP ||| FLAG_TRIM_DURATION) &&& FLAG_SKIP ≠ 0 := by decide
  have hflagA : (FLAG_SKIP ||| FLAG_TRIM_DURATION) &&& FLAG_AUDIO = 0 := by decide
  have h2 : playbackTime 60 (FLAG_SKIP ||| FLAG_TRIM_DURATION) = 5343 / 100 := by
    simp only [playbackTime, if_pos hflag2]
    rw [h1]
    norm_num [TESTVAL_TRIM_DURATION]
  have h3 : skewOf (FLAG_SKIP ||| FLAG_TRIM_DURATION) = 712 / 100 := by
    simp only [skewOf, if_pos hflag1]
    norm_num [TESTVAL_SKIP]
  have ht : tolerance = 1 / 25 := by norm_num [tolerance, SOURCE_FPS]
  have hfps : ((SOURCE_FPS : Nat) : ℚ) = 25 := by norm_num [SOURCE_FPS]
  refine ⟨h1, h2, h3, ?_⟩
  intro f
  rw [check_frame_characterization, h2, h3, ht, hfps]
  split_ifs with hA ha
  · constructor
    · intro h; exact absurd h (by decide)
    · rintro ⟨-, hc⟩; exact absurd hA (not_lt.mpr hc)
  · constructor
    · intro h; exact absurd h (by decide)
    · rintro ⟨hts, -⟩; exact absurd ha (not_lt.mpr hts)
  · exact iff_of_true rfl ⟨not_lt.mp ha, not_lt.mp hA⟩

/-- C5: when the audio flag is not set, `check_frame` decodes the frame id
from the first pixel as (pixel>>20 and 0xf)<<8 | (pixel>>12 and 0xf)<<4 |
(pixel>>4 and 0xf) (the low nibble is reserved) and compares the clipped
playback time against frame_id/25 minus the skew; when the audio flag is
set, the color check is skipped entirely (the pixel is irrelevant) and only
the timestamp check runs. -/
theorem C5_color_decoding :
    (∀ (ts t : ℚ) (flags p q : Nat), flags &&& FLAG_AUDIO ≠ 0 →
      check_frame ⟨ts, p⟩ t flags = check_frame ⟨ts, q⟩ t flags) ∧
    (∀ (f : Frame) (t : ℚ) (flags : Nat), flags &&& FLAG_AUDIO ≠ 0 →
      (check_frame f t flags = 0 ↔
        |playbackTime t flags - (f.ts - skewOf flags)| ≤ tolerance)) ∧
    (∀ (f : Frame) (t : ℚ) (flags : Nat), flags &&& FLAG_AUDIO = 0 →
      (check_frame f t flags = 0 ↔
        (|playbackTime t flags -
            ((frame_id_of f.pixel : ℚ) / (SOURCE_FPS : ℚ) - skewOf flags)| ≤
          tolerance ∧
         |playbackTime t flags - (f.ts - skewOf flags)| ≤ tolerance))) ∧
    (∀ p : Nat, frame_id_of p =
      ((p >>> 20) &&& 0xf) <<< 8 ||| ((p >>> 12) &&& 0xf) <<< 4 |||
        ((p >>> 4) &&& 0xf)) := by
  refine ⟨?_, ?_, ?_, fun p => rfl⟩
  · intro ts t flags p q hA
    rw [check_frame_characterization, check_frame_characterization, if_neg hA, if_neg hA]
  · intro f t flags hA
    rw [check_frame_characterization, if_neg hA]
    split_ifs with h1
    · simp [not_le.mpr h1]
    · simp [not_lt.mp h1]
  · intro f t flags hA
    rw [check_frame_characterization, if_pos hA]
    split_ifs with h1 h2
    · simp [not_le.mpr h1]
    · simp [not_le.mpr h2]
    · simp [not_lt.mp h1, not_lt.mp h2]

/-- C5 witness: with the audio flag the pixel does not matter and only the
timestamp check runs; without it the color conjunct appears. -/
theorem C5_witness :
    (4 : Nat) &&& FLAG_AUDIO ≠ 0 ∧ (0 : Nat) &&& FLAG_AUDIO = 0 ∧
    check_frame ⟨0, 0⟩ 0 4 = check_frame ⟨0, 7⟩ 0 4 ∧
    (check_frame ⟨0, 0⟩ 0 4 = 0 ↔
      |playbackTime 0 4 - ((0 : ℚ) - skewOf 4)| ≤ tolerance) ∧
    (check_frame ⟨0, 0⟩ 0 0 = 0 ↔
      (|playbackTime 0 0 - ((frame_id_of 0 : ℚ) / (SOURCE_FPS : ℚ) - skewOf 0)| ≤
          tolerance ∧
       |playbackTime 0 0 - ((0 : ℚ) - skewOf 0)| ≤ tolerance)) :=
  ⟨by decide, by decide,
   C5_color_decoding.1 0 0 4 0 7 (by decide),
   C5_color_decoding.2.1 ⟨0, 0⟩ 0 4 (by decide),
   C5_color_decoding.2.2.1 ⟨0, 0⟩ 0 0 (by decide)⟩

/-! ## action_fetch_info (test-prog.c lines 44-53)

```
static int action_fetch_info(struct sxplayer_ctx *s, int opt_test_flags)
{
    struct sxplayer_info info;
    int ret = sxplayer_get_info(s, &info);
    if (ret < 0)
        return ret;
    if (info.width != 16 || info.height != 16)
        return -1;
    return 0;
}
```
The external call `sxplayer_get_info` is modelled by its outputs: the
returned code and the reported width and height. -/

def action_fetch_info (get_info_ret width height : Int) : Int :=
  if get_info_ret < 0 then get_info_ret
  else if width ≠ 16 ∨ height ≠ 16 then -1
  else 0

/-- C10: `action_fetch_info` returns 0 exactly when the player's get_info
call succeeds and reports width 16 and height 16; it propagates a negative
get_info code unchanged, and returns -1 for any other dimensions. -/
theorem C10_fetch_info :
    (∀ r w h : Int, action_fetch_info r w h = 0 ↔ (0 ≤ r ∧ w = 16 ∧ h = 16)) ∧
    (∀ r w h : Int, r < 0 → action_fetch_info r w h = r) ∧
    (∀ r w h : Int, 0 ≤ r → (w ≠ 16 ∨ h ≠ 16) → action_fetch_info r w h = -1) := by
  refine ⟨fun r w h => ?_, fun r w h h1 => ?_, fun r w h h1 h2 => ?_⟩
  · unfold action_fetch_info
    split_ifs with g1 g2
    · constructor
      · intro h0; omega
      · rintro ⟨h0, -, -⟩; omega
    · constructor
      · intro h0; exact absurd h0 (by decide)
      · rintro ⟨-, hw, hh⟩
        rcases g2 with g | g
        · exact absurd hw g
        · exact absurd hh g
    · have hg := not_or.mp g2
      exact iff_of_true rfl ⟨by omega, not_not.mp hg.1, not_not.mp hg.2⟩
  · unfold action_fetch_info
    rw [if_pos h1]
  · unfold action_fetch_info
    rw [if_neg (by omega), if_pos h2]

/-- C10 witness at the three behaviours: success, propagated error, wrong
dimensions. -/
theorem C10_witness :
    action_fetch_info 0 16 16 = 0 ∧
    ((-5 : Int) < 0 ∧ action_fetch_info (-5) 16 16 = -5) ∧
    ((0 : Int) ≤ 0 ∧ ((17 : Int) ≠ 16 ∨ (16 : Int) ≠ 16) ∧
      action_fetch_info 0 17 16 = -1) :=
  ⟨(C10_fetch_info.1 0 16 16).mpr ⟨by decide, rfl, rfl⟩,
   ⟨by decide, C10_fetch_info.2.1 (-5) 16 16 (by decide)⟩,
   ⟨by decide, Or.inl (by decide),
    C10_fetch_info.2.2 0 17 16 (by decide) (Or.inl (by decide))⟩⟩

/-! ## action_start and action_middle (test-prog.c lines 108-161)

```
static int action_start(struct sxplayer_ctx *s, int opt_test_flags)
{
    int ret;
    struct sxplayer_frame *frame = sxplayer_get_frame(s, 0);
    if ((ret = check_frame(frame, 0, opt_test_flags)) < 0)
        return ret;
    sxplayer_release_frame(frame);
    return 0;
}

static int action_middle(struct sxplayer_ctx *s, int opt_test_flags)
{
    int ret;
    struct sxplayer_frame *f0 = sxplayer_get_frame(s, 30.0);
    struct sxplayer_frame *f1 = sxplayer_get_frame(s, 30.1);
    struct sxplayer_frame *f2 = sxplayer_get_frame(s, 30.2);
    struct sxplayer_frame *f3 = sxplayer_get_frame(s, 15.0);
    struct sxplayer_frame *f4 = sxplayer_get_next_frame(s);
    struct sxplayer_frame *f5 = sxplayer_get_next_frame(s);
    if ((ret = check_frame(f0, 30.0,               opt_test_flags)) < 0 ||
        (ret = check_frame(f1, 30.1,               opt_test_flags)) < 0 ||
        (ret = check_frame(f2, 30.2,               opt_test_flags)) < 0 ||
        (ret = check_frame(f3, 15.0,               opt_test_flags)) < 0 ||
        (ret = check_frame(f4, 15.0+1./SOURCE_FPS, opt_test_flags)) < 0 ||
        (ret = check_frame(f5, 15.0+2./SOURCE_FPS, opt_test_flags)) < 0)
        return ret;
    sxplayer_release_frame(f0);
    sxplayer_release_frame(f5);
    sxplayer_release_frame(f1);
    sxplayer_release_frame(f4);
    sxplayer_release_frame(f2);
    sxplayer_release_frame(f3);
    f0 = sxplayer_get_next_frame(s);
    f1 = sxplayer_get_frame(s, 16.0);
    f2 = sxplayer_get_frame(s, 16.001);
    if ((ret = check_frame(f0, 15.0+3./SOURCE_FPS, opt_test_flags)) < 0 ||
        (ret = check_frame(f1, 16.0,               opt_test_flags)) < 0)
        return ret;
    if (f2) { ...; return -1; }
    sxplayer_release_frame(f1);
    sxplayer_release_frame(f0);
    return 0;
}
```
The frames handed out by the player are modelled as explicit inputs, each
identified by its acquisition index (0..5 for the first six `get` calls of
`action_middle`, 6 and 7 for the next-frame and 16.0 calls, 8 for the
possibly-NULL 16.001 call).  Besides the returned code, the model returns
the list of indices acquired on the path taken and the list of indices
released, in order, so that the acquire/release discipline of every exit
path is visible. -/

def action_start (flags : Nat) (frame : Frame) : Int × List Nat × List Nat :=
  let ret := check_frame frame 0 flags
  if ret < 0 then (ret, [0], [])
  else (0, [0], [0])

/-- The playback times against which the eight non-NULL frames of
`action_middle` are checked (frame 4, 5 and 6 coming from
`sxplayer_get_next_frame` are expected to follow the 15.0 seek). -/
def middle_times : List ℚ :=
  [30, 301 / 10, 302 / 10, 15, 15 + 1 / 25, 15 + 2 / 25, 15 + 3 / 25, 16]

def action_middle (flags : Nat) (resp : Fin 8 → Frame) (f2 : Option Frame) :
    Int × List Nat × List Nat :=
  let acq1 : List Nat := [0, 1, 2, 3, 4, 5]
  let r0 := check_frame (resp 0) 30 flags
  if r0 < 0 then (r0, acq1, []) else
  let r1 := check_frame (resp 1) (301 / 10) flags
  if r1 < 0 then (r1, acq1, []) else
  let r2 := check_frame (resp 2) (302 / 10) flags
  if r2 < 0 then (r2, acq1, []) else
  let r3 := check_frame (resp 3) 15 flags
  if r3 < 0 then (r3, acq1, []) else
  let r4 := check_frame (resp 4) (15 + 1 / 25) flags
  if r4 < 0 then (r4, acq1, []) else
  let r5 := check_frame (resp 5) (15 + 2 / 25) flags
  if r5 < 0 then (r5, acq1, []) else
  let rel1 : List Nat := [0, 5, 1, 4, 2, 3]
  let acq2 : List Nat := acq1 ++ [6, 7] ++ (if f2.isSome then [8] else [])
  let r6 := check_frame (resp 6) (15 + 3 / 25) flags
  if r6 < 0 then (r6, acq2, rel1) else
  let r7 := check_frame (resp 7) 16 flags
  if r7 < 0 then (r7, acq2, rel1) else
  if f2.isSome then (-1, acq2, rel1)
  else (0, acq2, rel1 ++ [7, 6])

/-- C7 counterexample: with a frame whose timestamp and color are far from
the requested time 30.0, the very first comparison of `action_middle`
fails and the function returns having acquired the six frames f0..f5 and
released none of them -- the release-on-failure-path stated by the claim
does not happen. -/
theorem C7_counterexample :
    action_middle 0 (fun _ => ⟨100, 0⟩) none = (-1, [0, 1, 2, 3, 4, 5], []) ∧
    ¬ (∀ i ∈ [0, 1, 2, 3, 4, 5], i ∈ ([] : List Nat)) := by
  have hc : check_frame ⟨100, 0⟩ 30 0 = -1 := by
    rw [check_frame_characterization]
    norm_num [playbackTime, av_clipd, skewOf, tolerance, DBL_MAX, SOURCE_FPS,
      frame_id_of, abs_of_nonneg]
  constructor
  · simp only [action_middle, hc]
    norm_num
  · intro h
    have := h 0 (by simp)
    simp at this

/-- C7 amended: on the success path every acquired frame is released
exactly once (`action_start` releases its frame, `action_middle` releases
all eight frames it holds, in the order f0 f5 f1 f4 f2 f3 f1' f0'); but on
a failure path no release happens: when an early check fails,
`action_middle` returns with the six (or eight) acquired frames
unreleased, and `action_start` likewise leaks its frame. -/
theorem C7_amended_release :
    (∀ (flags : Nat) (f : Frame), 0 ≤ check_frame f 0 flags →
      action_start flags f = (0, [0], [0])) ∧
    (∀ (flags : Nat) (f : Frame), check_frame f 0 flags < 0 →
      action_start flags f = (check_frame f 0 flags, [0], [])) ∧
    (∀ (flags : Nat) (resp : Fin 8 → Frame),
      (∀ i : Fin 8, 0 ≤ check_frame (resp i) (middle_times.getD i.val 0) flags) →
      action_middle flags resp none =
        (0, [0, 1, 2, 3, 4, 5, 6, 7], [0, 5, 1, 4, 2, 3, 7, 6]) ∧
      List.Perm [0, 5, 1, 4, 2, 3, 7, 6] [0, 1, 2, 3, 4, 5, 6, 7]) ∧
    (∀ (flags : Nat) (resp : Fin 8 → Frame) (f2 : Option Frame),
      check_frame (resp 0) 30 flags < 0 →
      action_middle flags resp f2 =
        (check_frame (resp 0) 30 flags, [0, 1, 2, 3, 4, 5], [])) := by
  refine ⟨?_, ?_, ?_, ?_⟩
  · intro flags f h
    unfold action_start
    rw [if_neg (not_lt.mpr h)]
  · intro flags f h
    unfold action_start
    rw [if_pos h]
  · intro flags resp h
    have h0 : ¬ check_frame (resp 0) 30 flags < 0 := not_lt.mpr (h 0)
    have h1 : ¬ check_frame (resp 1) (301 / 10) flags < 0 := not_lt.mpr (h 1)
    have h2 : ¬ check_frame (resp 2) (302 / 10) flags < 0 := not_lt.mpr (h 2)
    have h3 : ¬ check_frame (resp 3) 15 flags < 0 := not_lt.mpr (h 3)
    have h4 : ¬ check_frame (resp 4) (15 + 1 / 25) flags < 0 := not_lt.mpr (h 4)
    have h5 : ¬ check_frame (resp 5) (15 + 2 / 25) flags < 0 := not_lt.mpr (h 5)
    have h6 : ¬ check_frame (resp 6) (15 + 3 / 25) flags < 0 := not_lt.mpr (h 6)
    have h7 : ¬ check_frame (resp 7) 16 flags < 0 := not_lt.mpr (h 7)
    constructor
    · simp only [action_middle,
        if_neg h0, if_neg h1, if_neg h2, if_neg h3, if_neg h4, if_neg h5,
        if_neg h6, if_neg h7]
      norm_num
    · decide
  · intro flags resp f2 h
    simp only [action_middle, if_pos h]

/-- Frames consistent with the expected times of `action_middle` under no
skew and no trim: timestamps equal to the requested times and pixel-encoded
frame ids near time*25. -/
def goodMiddleFrames : List Frame :=
  [⟨30, pixel_of_id 750⟩, ⟨301 / 10, pixel_of_id 752⟩, ⟨302 / 10, pixel_of_id 755⟩,
   ⟨15, pixel_of_id 375⟩, ⟨15 + 1 / 25, pixel_of_id 376⟩,
   ⟨15 + 2 / 25, pixel_of_id 377⟩, ⟨15 + 3 / 25, pixel_of_id 378⟩,
   ⟨16, pixel_of_id 400⟩]

def respGood : Fin 8 → Frame := fun i => goodMiddleFrames.getD i.val ⟨0, 0⟩

/-- C7 witness: with consistent frames every check passes, `action_start`
releases its frame, and `action_middle` releases all eight frames it holds,
a permutation of the acquired ones; with a bad frame the failure path of
`action_middle` releases nothing. -/
theorem C7_witness :
    (0 ≤ check_frame ⟨0, pixel_of_id 0⟩ 0 0 ∧
      action_start 0 ⟨0, pixel_of_id 0⟩ = (0, [0], [0])) ∧
    ((∀ i : Fin 8, 0 ≤ check_frame (respGood i) (middle_times.getD i.val 0) 0) ∧
      action_middle 0 respGood none =
        (0, [0, 1, 2, 3, 4, 5, 6, 7], [0, 5, 1, 4, 2, 3, 7, 6])) ∧
    (check_frame ⟨100, 0⟩ 30 0 < 0 ∧
      action_middle 0 (fun _ => ⟨100, 0⟩) none =
        (check_frame ⟨100, 0⟩ 30 0, [0, 1, 2, 3, 4, 5], [])) := by
  have i0 : frame_id_of (pixel_of_id 0) = 0 := by decide
  have hstart : 0 ≤ check_frame ⟨0, pixel_of_id 0⟩ 0 0 := by
    rw [check_frame_characterization]
    norm_num [playbackTime, av_clipd, skewOf, tolerance, DBL_MAX, SOURCE_FPS,
      i0, abs_of_nonneg]
  have i750 : frame_id_of (pixel_of_id 750) = 750 := by decide
  have i752 : frame_id_of (pixel_of_id 752) = 752 := by decide
  have i755 : frame_id_of (pixel_of_id 755) = 755 := by decide
  have i375 : frame_id_of (pixel_of_id 375) = 375 := by decide
  have i376 : frame_id_of (pixel_of_id 376) = 376 := by decide
  have i377 : frame_id_of (pixel_of_id 377) = 377 := by decide
  have i378 : frame_id_of (pixel_of_id 378) = 378 := by decide
  have i400 : frame_id_of (pixel_of_id 400) = 400 := by decide
  have hgood : ∀ i : Fin 8,
      0 ≤ check_frame (respGood i) (middle_times.getD i.val 0) 0 := by
    intro i
    fin_cases i <;>
      simp only [respGood, goodMiddleFrames, middle_times, List.getD] <;>
      rw [check_frame_characterization] <;>
      norm_num [playbackTime, av_clipd, skewOf, tolerance, DBL_MAX, SOURCE_FPS,
        i750, i752, i755, i375, i376, i377, i378, i400,
        abs_of_nonneg, abs_of_nonpos]
  have hbad : check_frame ⟨100, 0⟩ 30 0 < 0 := by
    rw [check_frame_characterization]
    norm_num [playbackTime, av_clipd, skewOf, tolerance, DBL_MAX, SOURCE_FPS,
      frame_id_of, abs_of_nonneg]
  exact ⟨⟨hstart, C7_amended_release.1 0 ⟨0, pixel_of_id 0⟩ hstart⟩,
    ⟨hgood, (C7_amended_release.2.2.1 0 respGood hgood).1⟩,
    ⟨hbad, C7_amended_release.2.2.2 0 (fun _ => ⟨100, 0⟩) none hbad⟩⟩

end Sxtest

namespace Sxtest

/-! ## exec_comb (test-prog.c lines 210-225)

```
static int exec_comb(struct sxplayer_ctx *s, uint64_t comb, int opt_test_flags)
{
    int i;
    print_comb_name(comb, opt_test_flags);
    for (i = 0; i < NB_ACTIONS; i++) {
        int ret;
        const int action = GET_ACTION(comb, i);
        if (!action)
            break;
        ret = actions_desc[action].func(s, opt_test_flags);
        if (ret < 0)
            return ret;
    }
    return 0;
}
```
The call through the `actions_desc` table mutates the player session `s`;
it is modelled by an explicit state type `σ` and a function `funcs` from
action id and state to result and new state. -/

/-- The `for` loop of `exec_comb`; the fuel argument counts the remaining
iterations (`NB_ACTIONS - i`), and falling out of the loop returns 0 with
the current session state. -/
def exec_loop {σ : Type} (funcs : Nat → σ → Int × σ) (comb : Nat) :
    Nat → Nat → σ → Int × σ
  | 0, _, s => (0, s)
  | fuel + 1, i, s =>
    let action := GET_ACTION comb i
    if action = 0 then (0, s)
    else
      let rs := funcs action s
      if rs.1 < 0 then rs
      else exec_loop funcs comb fuel (i + 1) rs.2

/-- `exec_comb` (the session state is returned alongside the result to make
the mutation of the player session observable). -/
def exec_comb {σ : Type} (funcs : Nat → σ → Int × σ) (comb : Nat) (s : σ) :
    Int × σ :=
  exec_loop funcs comb NB_ACTIONS 0 s

/-- Modelled from the spec: run the actions of a decoded sequence in order,
short-circuiting on the first negative result and propagating it, returning
0 if the whole list runs. -/
def run_actions {σ : Type} (funcs : Nat → σ → Int × σ) : List Nat → σ → Int × σ
  | [], s => (0, s)
  | a :: rest, s =>
    let rs := funcs a s
    if rs.1 < 0 then rs else run_actions funcs rest rs.2

theorem GET_ACTION_eq (c i : Nat) : GET_ACTION c i = c / 16 ^ i % 16 := by
  unfold GET_ACTION BITS_PER_ACTION
  rw [show (1 <<< 4 - 1 : Nat) = 2 ^ 4 - 1 from rfl]
  rw [Nat.and_pow_two_sub_one_eq_mod, Nat.shiftRight_eq_div_pow]
  rw [show (16 : Nat) = 2 ^ 4 from rfl, ← pow_mul, Nat.mul_comm 4 i]

theorem exec_loop_run {σ : Type} (funcs : Nat → σ → Int × σ) (comb : Nat) :
    ∀ (fuel i : Nat) (s : σ),
      exec_loop funcs comb fuel i s =
        run_actions funcs (decodeAux fuel (comb / 16 ^ i)) s := by
  intro fuel
  induction fuel with
  | zero => intro i s; rfl
  | succ fuel ih =>
    intro i s
    simp only [exec_loop, decodeAux, GET_ACTION_eq]
    by_cases h : comb / 16 ^ i % 16 = 0
    · rw [if_pos h, if_pos h]
      rfl
    · rw [if_neg h, if_neg h]
      simp only [run_actions]
      by_cases hr : (funcs (comb / 16 ^ i % 16) s).1 < 0
      · rw [if_pos hr, if_pos hr]
      · rw [if_neg hr, if_neg hr]
        rw [ih (i + 1)]
        rw [Nat.div_div_eq_div_mul, ← pow_succ]

/-- C8: `exec_comb` runs the actions of the packed sequence in position
order, invoking the registered callable of each; it stops at the first
callable returning a negative result and propagates that result without
invoking any later action, and returns 0 when it reaches the terminator or
the position bound.  `run_actions` is the specification-side reference
executor over the decoded action list. -/
theorem C8_executor :
    (∀ (σ : Type) (funcs : Nat → σ → Int × σ) (comb : Nat) (s : σ),
      exec_comb funcs comb s = run_actions funcs (decodeC comb) s) ∧
    (∀ (σ : Type) (funcs : Nat → σ → Int × σ) (s : σ),
      run_actions funcs [] s = (0, s)) ∧
    (∀ (σ : Type) (funcs : Nat → σ → Int × σ) (a : Nat) (rest : List Nat) (s : σ),
      (funcs a s).1 < 0 → run_actions funcs (a :: rest) s = funcs a s) ∧
    (∀ (σ : Type) (funcs : Nat → σ → Int × σ) (a : Nat) (rest : List Nat) (s : σ),
      ¬ (funcs a s).1 < 0 →
        run_actions funcs (a :: rest) s = run_actions funcs rest (funcs a s).2) := by
  refine ⟨?_, fun σ funcs s => rfl, ?_, ?_⟩
  · intro σ funcs comb s
    unfold exec_comb decodeC
    rw [exec_loop_run]
    norm_num
  · intro σ funcs a rest s h
    simp only [run_actions]
    rw [if_pos h]
  · intro σ funcs a rest s h
    simp only [run_actions]
    rw [if_neg h]

/-- A recording callable for exercising the executor: action 3 fails with
-2, every other action succeeds, and the state logs the invoked ids. -/
def traceFuncs : Nat → List Nat → Int × List Nat :=
  fun a s => (if a = 3 then -2 else 0, s ++ [a])

/-- C8 witness: on the packed sequence 0x231 = [1, 3, 2] the executor runs
action 1, then fails at action 3 with -2, never invoking action 2; on
0x21 = [1, 2] it runs both and returns 0. -/
theorem C8_witness :
    exec_comb traceFuncs 0x231 [] = (-2, [1, 3]) ∧
    exec_comb traceFuncs 0x21 [] = (0, [1, 2]) ∧
    (traceFuncs 3 [1]).1 < 0 ∧
    ¬ (traceFuncs 1 ([] : List Nat)).1 < 0 ∧
    run_actions traceFuncs (1 :: [3, 2]) [] =
      run_actions traceFuncs [3, 2] (traceFuncs 1 []).2 ∧
    run_actions traceFuncs (3 :: [2]) [1] = traceFuncs 3 [1] := by
  have h1 : decodeC 0x231 = [1, 3, 2] := by decide
  have h2 : decodeC 0x21 = [1, 2] := by decide
  have e1 := C8_executor.1 (List Nat) traceFuncs 0x231 []
  have e2 := C8_executor.1 (List Nat) traceFuncs 0x21 []
  rw [h1] at e1
  rw [h2] at e2
  refine ⟨?_, ?_, by decide, by decide, ?_, ?_⟩
  · rw [e1]; decide
  · rw [e2]; decide
  · exact C8_executor.2.2.2 (List Nat) traceFuncs 1 [3, 2] [] (by decide)
  · exact C8_executor.2.2.1 (List Nat) traceFuncs 3 [2] [1] (by decide)

end Sxtest
